import Mathlib

/-!
Verification of the `antenna` marketing-briefing pipeline.

A shallow embedding of the two Python modules `marketing_os.py` and
`twitter_listener.py`, together with theorems settling the specification
claims about scoring, prioritisation, briefing generation, file naming,
fetch-loop error tolerance and deduplication.

Modelling conventions:
* Python `int` is `ℤ`; counts produced by `sum(1 for ...)` are `ℕ` cast to `ℤ`.
* Python `str` is `String`; `term in text` (substring membership) is
  `strContains`, a structural substring search on the character list;
  `str.lower()` is `lowerStr` (character-wise `Char.toLower`, which agrees
  with CPython on the ASCII texts involved).
* `dict.get(key, default)` / `hasattr` access on third-party API payloads is
  modelled by records with `Option` fields plus `Option.getD`.
* I/O boundaries (network search calls, the clock, the md5 digest) enter as
  explicit function/value parameters; a per-query network call that the code
  wraps in `try/except` is a function into `Except`.
-/

/-- Structural substring test on character lists: does `needle` occur as a
contiguous run inside the second list?  (Empty needle always occurs, matching
Python's `"" in s == True`.) -/
def listHasSub (needle : List Char) : List Char → Bool
  | [] => needle.isEmpty
  | c :: cs => needle.isPrefixOf (c :: cs) || listHasSub needle cs

/-- Python's `needle in haystack` substring operator on strings. -/
def strContains (haystack needle : String) : Bool :=
  listHasSub needle.data haystack.data

/-- Python's `str.lower()` (character-wise; coincides with CPython on ASCII). -/
def lowerStr (s : String) : String := ⟨s.data.map Char.toLower⟩

/-- Python's `str.split(sep)` for a one-character separator, on character
lists.  Always returns at least one (possibly empty) segment, like Python. -/
def splitOnChar (sep : Char) : List Char → List (List Char)
  | [] => [[]]
  | c :: cs =>
    match splitOnChar sep cs with
    | [] => [[]]
    | seg :: rest => if c = sep then [] :: seg :: rest else (c :: seg) :: rest

/-- Python's `str.split(sep)` for a one-character separator. -/
def strSplit (s : String) (sep : Char) : List String :=
  (splitOnChar sep s.data).map (fun l => ⟨l⟩)

/-- The platform-agnostic post record assembled by the fetchers
(`extract_bluesky_post` / `extract_youtube_video` plus the `matched_query`
key added by the fetch loops).  Platform-specific extra keys that no claim
reads (`views`, `title`, `description`, `channel_url`) are omitted. -/
structure NormalizedPost where
  platform : String
  post_id : String
  url : String
  author_handle : String
  author_name : String
  text : String
  created_at : String
  likes : ℤ
  replies : ℤ
  reposts : ℤ
  engagement_total : ℤ
  matched_query : String
deriving DecidableEq, Repr

/-- The score dictionary returned by `score_post` (`marketing_os.py`,
lines 267-274), field order as in the source. -/
structure ScoreBreakdown where
  total : ℤ
  icp_match : ℤ
  topic_relevance : ℤ
  reach_potential : ℤ
  timing : ℤ
  conversation_stage : ℤ
deriving DecidableEq, Repr

/-- Source list `high_value_terms` (`marketing_os.py` lines 110-128). -/
def high_value_terms : List String :=
  ["own my data", "data sovereignty", "self-sovereign", "privacy by design",
   "decentralized", "peer-to-peer", "no single point of failure", "big tech",
   "walled gardens", "surveillance capitalism", "self-hosting", "homelab",
   "cypherpunk", "open web", "the web we were promised", "digital rights",
   "data ownership"]

/-- Source list `question_signals` (`marketing_os.py` lines 131-142). -/
def question_signals : List String :=
  ["is there an alternative", "looking for", "anyone know", "what's actually",
   "recommendations for", "trying to find", "frustrated with", "tired of",
   "concerned about", "worried about"]

/-- Source list `low_value_terms` (`marketing_os.py` lines 145-155). -/
def low_value_terms : List String :=
  ["token price", "to the moon", "nft", "airdrop", "presale",
   "enterprise solution", "b2b", "roi", "kpi"]

/-- Source list `direct_relevance` (`marketing_os.py` lines 173-184). -/
def direct_relevance : List String :=
  ["decentralized storage", "encrypted storage", "private storage",
   "data privacy", "end-to-end encryption", "self-encrypting", "no servers",
   "serverless", "permanent storage", "censorship resistant"]

/-- Source list `adjacent_topics` (`marketing_os.py` lines 187-202). -/
def adjacent_topics : List String :=
  ["ipfs", "filecoin", "storj", "sia", "nextcloud", "syncthing", "proton",
   "signal", "cloud storage", "google drive", "dropbox", "aws", "azure",
   "cloud costs"]

/-- Rounding of `n / 100` to the nearest integer, ties to even: the exact
value of CPython's `round` applied to the weighted total.

The source computes `icp_score * 0.30 + topic_score * 0.25 + ...` in IEEE
binary64 arithmetic and applies `round` (round-half-to-even on the float).
The exact weighted total is `n / 100` with
`n = 30*icp + 25*topic + 15*reach + 15*timing + 15*stage`.  For every
combination of sub-scores in `[0,100]` the binary64 evaluation of the
source expression rounds to the same integer as round-half-to-even of the
exact rational `n / 100` (checked by exhaustive enumeration of that finite
domain), so the float pipeline is modelled exactly by this function. -/
def roundHalfEven100 (n : ℤ) : ℤ :=
  let q := n / 100
  let r := n % 100
  if r < 50 then q
  else if 50 < r then q + 1
  else if q % 2 = 0 then q else q + 1

/-- Source function `score_post` (`marketing_os.py` lines 89-274).  The two context-file
arguments are accepted and ignored, exactly as in the source.  The
`created_at` field is read into a local in the source but never used for
logic; it is likewise unused here. -/
def score_post (post : NormalizedPost) ( icp_context : String)
    ( positioning_context : String) : ScoreBreakdown :=
  let text := lowerStr post.text
  let engagement := post.engagement_total
  -- ICP Match (0-100)
  let high_matches : ℤ := high_value_terms.countP (fun term => strContains text term)
  let question_matches : ℤ := question_signals.countP (fun term => strContains text term)
  let low_matches : ℤ := low_value_terms.countP (fun term => strContains text term)
  let icp_score : ℤ := min 100 (high_matches * 20 + question_matches * 25)
  let icp_score : ℤ := max 0 (icp_score - low_matches * 30)
  let icp_score : ℤ := if icp_score = 0 then 30 else icp_score
  -- Topic Relevance (0-100)
  let direct_matches : ℤ := direct_relevance.countP (fun term => strContains text term)
  let adjacent_matches : ℤ := adjacent_topics.countP (fun term => strContains text term)
  let topic_score : ℤ := min 100 (direct_matches * 30 + adjacent_matches * 15)
  let topic_score : ℤ := if topic_score = 0 then 25 else topic_score
  -- Reach Potential (0-100)
  let reach_score : ℤ :=
    if engagement ≥ 100 then 100
    else if engagement ≥ 50 then 80
    else if engagement ≥ 20 then 60
    else if engagement ≥ 10 then 40
    else if engagement ≥ 5 then 25
    else 10
  -- Timing (0-100): default to good timing since we search recent posts
  let timing_score : ℤ := 80
  -- Conversation Stage (0-100)
  let stage_score : ℤ :=
    if ["?", "anyone", "looking for", "recommendations", "trying to"].any
        (fun q => strContains text q) then 85
    else if ["frustrated", "tired of", "hate", "annoyed", "sick of"].any
        (fun f => strContains text f) then 75
    else if ["i use", "switched to", "moved to", "loving"].any
        (fun d => strContains text d) then 30
    else 50
  -- Weighted total: round(icp*0.30 + topic*0.25 + reach*0.15 + timing*0.15
  -- + stage*0.15); see `roundHalfEven100` for the float modelling.
  let total : ℤ := roundHalfEven100
    (30 * icp_score + 25 * topic_score + 15 * reach_score + 15 * timing_score
      + 15 * stage_score)
  { total := total
    icp_match := icp_score
    topic_relevance := topic_score
    reach_potential := reach_score
    timing := timing_score
    conversation_stage := stage_score }

/-- The configuration slots read by `get_priority` and `generate_briefing`:
`config.get("scorer", {}).get("thresholds", {}).get("high" / "medium", _)`.
`none` models an absent key. -/
structure Config where
  thresholds_high : Option ℤ
  thresholds_medium : Option ℤ
deriving DecidableEq, Repr

/-- A configuration with no keys set: every lookup falls back to defaults. -/
def emptyConfig : Config := { thresholds_high := none, thresholds_medium := none }

/-- Source function `get_priority` (`marketing_os.py` lines 277-288). -/
def get_priority (score : ℤ) (config : Config) : String :=
  let high_threshold := config.thresholds_high.getD 70
  let medium_threshold := config.thresholds_medium.getD 50
  if score ≥ high_threshold then "high"
  else if score ≥ medium_threshold then "medium"
  else "low"

/-- The spec's priority ordering low < medium < high, as a rank function. -/
def priorityRank : String → ℕ
  | "high" => 2
  | "medium" => 1
  | _ => 0

/-- Round-half-to-even on an exact rational: the rounding rule of CPython's
`round`.  Spec-side definition used to state claim C2. -/
def pythonRound (x : ℚ) : ℤ :=
  if x - ⌊x⌋ < 1 / 2 then ⌊x⌋
  else if 1 / 2 < x - ⌊x⌋ then ⌊x⌋ + 1
  else if ⌊x⌋ % 2 = 0 then ⌊x⌋ else ⌊x⌋ + 1

/-- Spec-side restatement of the `icp_match` computation (claim C3):
per-term substring presence in the lowercased text, high-value at 20,
question/exploration at 25, capped at 100, minus 30 per low-value term,
floored at 0, with exact-zero results replaced by the fixed baseline 30. -/
def icpMatchSpec (rawText : String) : ℤ :=
  let text := lowerStr rawText
  let hm : ℤ := high_value_terms.countP (fun term => strContains text term)
  let qm : ℤ := question_signals.countP (fun term => strContains text term)
  let lm : ℤ := low_value_terms.countP (fun term => strContains text term)
  let v : ℤ := max 0 (min 100 (hm * 20 + qm * 25) - lm * 30)
  if v = 0 then 30 else v

/-- A post with empty text and zero engagement (the worked example of the
spec, claim C2). -/
def emptyPost : NormalizedPost :=
  { platform := "bluesky", post_id := "", url := "", author_handle := "",
    author_name := "", text := "", created_at := "", likes := 0, replies := 0,
    reposts := 0, engagement_total := 0, matched_query := "" }

/-- The worked example post of the spec (claim C4): the quoted text with
`engagement_total = 12`. -/
def c4Post : NormalizedPost :=
  { platform := "bluesky", post_id := "", url := "", author_handle := "",
    author_name := "",
    text := "I'm looking for decentralized storage, tired of big tech",
    created_at := "", likes := 0, replies := 0, reposts := 0,
    engagement_total := 12, matched_query := "" }


/-! Section: Rounding bridge lemmas -/

lemma floor_int_div100 (n : ℤ) : ⌊(n : ℚ) / 100⌋ = n / 100 := by
  have h := Rat.floor_intCast_div_natCast n 100
  simpa using h

lemma fract_int_div100 (n : ℤ) :
    (n : ℚ) / 100 - (⌊(n : ℚ) / 100⌋ : ℚ) = ((n % 100 : ℤ) : ℚ) / 100 := by
  rw [floor_int_div100]
  have h : (n : ℚ) = ((n / 100 : ℤ) : ℚ) * 100 + ((n % 100 : ℤ) : ℚ) := by
    rw [mul_comm]
    exact_mod_cast (Int.ediv_add_emod n 100).symm
  rw [h]
  ring

lemma cast_div100_lt_half (m : ℤ) : ((m : ℚ) / 100 < 1 / 2) ↔ m < 50 := by
  rw [div_lt_div_iff₀ (by norm_num) (by norm_num)]
  have h2 : ((m : ℚ) * 2 < 1 * 100) ↔ ((m * 2 : ℤ) : ℚ) < ((100 : ℤ) : ℚ) := by
    push_cast; ring_nf
  rw [h2, Int.cast_lt]
  omega

lemma half_lt_cast_div100 (m : ℤ) : (1 / 2 < (m : ℚ) / 100) ↔ 50 < m := by
  rw [div_lt_div_iff₀ (by norm_num) (by norm_num)]
  have h2 : ((1 : ℚ) * 100 < m * 2) ↔ ((100 : ℤ) : ℚ) < ((m * 2 : ℤ) : ℚ) := by
    push_cast; ring_nf
  rw [h2, Int.cast_lt]
  omega

/-- Round-half-to-even of the exact rational `n / 100` agrees with the
integer-level computation used in the embedding of `score_post`. -/
lemma pythonRound_div100 (n : ℤ) : pythonRound ((n : ℚ) / 100) = roundHalfEven100 n := by
  simp only [pythonRound, roundHalfEven100]
  rw [fract_int_div100, floor_int_div100]
  simp only [cast_div100_lt_half, half_lt_cast_div100]

/-! Section: Claim theorems: scoring -/

/-- C1: for every NormalizedPost, each of the five sub-scores returned by
`score_post` is an integer in [0,100], and the weighted total is an integer
in [0,100]. -/
theorem score_post_range (post : NormalizedPost) (ctx1 ctx2 : String) :
    (0 ≤ (score_post post ctx1 ctx2).icp_match ∧ (score_post post ctx1 ctx2).icp_match ≤ 100)
    ∧ (0 ≤ (score_post post ctx1 ctx2).topic_relevance ∧ (score_post post ctx1 ctx2).topic_relevance ≤ 100)
    ∧ (0 ≤ (score_post post ctx1 ctx2).reach_potential ∧ (score_post post ctx1 ctx2).reach_potential ≤ 100)
    ∧ (0 ≤ (score_post post ctx1 ctx2).timing ∧ (score_post post ctx1 ctx2).timing ≤ 100)
    ∧ (0 ≤ (score_post post ctx1 ctx2).conversation_stage ∧ (score_post post ctx1 ctx2).conversation_stage ≤ 100)
    ∧ (0 ≤ (score_post post ctx1 ctx2).total ∧ (score_post post ctx1 ctx2).total ≤ 100) := by
  have hicp : (score_post post ctx1 ctx2).icp_match = icpMatchSpec post.text := rfl
  have hicpb : 0 ≤ (score_post post ctx1 ctx2).icp_match ∧ (score_post post ctx1 ctx2).icp_match ≤ 100 := by
    rw [hicp]; simp only [icpMatchSpec]; split_ifs <;> omega
  have htop : (score_post post ctx1 ctx2).topic_relevance =
      (if min 100 ((direct_relevance.countP (fun term => strContains (lowerStr post.text) term) : ℤ) * 30
          + (adjacent_topics.countP (fun term => strContains (lowerStr post.text) term) : ℤ) * 15) = 0
        then 25
        else min 100 ((direct_relevance.countP (fun term => strContains (lowerStr post.text) term) : ℤ) * 30
          + (adjacent_topics.countP (fun term => strContains (lowerStr post.text) term) : ℤ) * 15)) := rfl
  have htopb : 0 ≤ (score_post post ctx1 ctx2).topic_relevance ∧ (score_post post ctx1 ctx2).topic_relevance ≤ 100 := by
    rw [htop]; split_ifs <;> omega
  have hreach : (score_post post ctx1 ctx2).reach_potential =
      (if post.engagement_total ≥ 100 then (100 : ℤ)
        else if post.engagement_total ≥ 50 then 80
        else if post.engagement_total ≥ 20 then 60
        else if post.engagement_total ≥ 10 then 40
        else if post.engagement_total ≥ 5 then 25
        else 10) := rfl
  have hreachb : 0 ≤ (score_post post ctx1 ctx2).reach_potential ∧ (score_post post ctx1 ctx2).reach_potential ≤ 100 := by
    rw [hreach]; split_ifs <;> omega
  have htim : (score_post post ctx1 ctx2).timing = 80 := rfl
  have hstage : (score_post post ctx1 ctx2).conversation_stage =
      (if ["?", "anyone", "looking for", "recommendations", "trying to"].any
            (fun q => strContains (lowerStr post.text) q) then (85 : ℤ)
        else if ["frustrated", "tired of", "hate", "annoyed", "sick of"].any
            (fun f => strContains (lowerStr post.text) f) then 75
        else if ["i use", "switched to", "moved to", "loving"].any
            (fun d => strContains (lowerStr post.text) d) then 30
        else 50) := rfl
  have hstageb : 0 ≤ (score_post post ctx1 ctx2).conversation_stage ∧ (score_post post ctx1 ctx2).conversation_stage ≤ 100 := by
    rw [hstage]; split_ifs <;> omega
  have htotal : (score_post post ctx1 ctx2).total =
      roundHalfEven100 (30 * (score_post post ctx1 ctx2).icp_match
        + 25 * (score_post post ctx1 ctx2).topic_relevance
        + 15 * (score_post post ctx1 ctx2).reach_potential
        + 15 * (score_post post ctx1 ctx2).timing
        + 15 * (score_post post ctx1 ctx2).conversation_stage) := rfl
  have htotalb : 0 ≤ (score_post post ctx1 ctx2).total ∧ (score_post post ctx1 ctx2).total ≤ 100 := by
    rw [htotal]
    simp only [roundHalfEven100]
    obtain ⟨hi1, hi2⟩ := hicpb
    obtain ⟨ht1, ht2⟩ := htopb
    obtain ⟨hr1, hr2⟩ := hreachb
    obtain ⟨hs1, hs2⟩ := hstageb
    rw [htim]
    split_ifs <;> constructor <;> omega
  exact ⟨hicpb, htopb, hreachb, ⟨by rw [htim]; norm_num, by rw [htim]; norm_num⟩, hstageb, htotalb⟩

/-- C2: the total is the fixed-weight sum of the five sub-scores
(0.30/0.25/0.15/0.15/0.15), rounded to the nearest integer with the single
consistent rule round-half-to-even; in particular the empty-text,
zero-engagement post scores 30/25/10/80/50 with total 36 and priority low
under the default thresholds. -/
theorem score_post_total_round_half_even :
    (∀ (post : NormalizedPost) (ctx1 ctx2 : String),
      (score_post post ctx1 ctx2).total =
        pythonRound (((score_post post ctx1 ctx2).icp_match : ℚ) * 0.30
          + ((score_post post ctx1 ctx2).topic_relevance : ℚ) * 0.25
          + ((score_post post ctx1 ctx2).reach_potential : ℚ) * 0.15
          + ((score_post post ctx1 ctx2).timing : ℚ) * 0.15
          + ((score_post post ctx1 ctx2).conversation_stage : ℚ) * 0.15))
    ∧ score_post emptyPost "" "" =
        { total := 36, icp_match := 30, topic_relevance := 25,
          reach_potential := 10, timing := 80, conversation_stage := 50 }
    ∧ get_priority (score_post emptyPost "" "").total emptyConfig = "low" := by
  refine ⟨?_, by decide, by decide⟩
  intro post ctx1 ctx2
  have htotal : (score_post post ctx1 ctx2).total =
      roundHalfEven100 (30 * (score_post post ctx1 ctx2).icp_match
        + 25 * (score_post post ctx1 ctx2).topic_relevance
        + 15 * (score_post post ctx1 ctx2).reach_potential
        + 15 * (score_post post ctx1 ctx2).timing
        + 15 * (score_post post ctx1 ctx2).conversation_stage) := rfl
  have hsum : ((score_post post ctx1 ctx2).icp_match : ℚ) * 0.30
      + ((score_post post ctx1 ctx2).topic_relevance : ℚ) * 0.25
      + ((score_post post ctx1 ctx2).reach_potential : ℚ) * 0.15
      + ((score_post post ctx1 ctx2).timing : ℚ) * 0.15
      + ((score_post post ctx1 ctx2).conversation_stage : ℚ) * 0.15 =
      (((30 * (score_post post ctx1 ctx2).icp_match
        + 25 * (score_post post ctx1 ctx2).topic_relevance
        + 15 * (score_post post ctx1 ctx2).reach_potential
        + 15 * (score_post post ctx1 ctx2).timing
        + 15 * (score_post post ctx1 ctx2).conversation_stage : ℤ)) : ℚ) / 100 := by
    push_cast
    ring_nf
  rw [htotal, hsum, pythonRound_div100]

/-- C3: `icp_match` is computed by per-term substring presence in the
lowercased text, 20 per high-value term and 25 per question/exploration
term, capped at 100, minus 30 per low-value term, floored at 0, and the
fixed baseline 30 replaces an exact-zero result. -/
theorem score_post_icp_match_spec (post : NormalizedPost) (ctx1 ctx2 : String) :
    (score_post post ctx1 ctx2).icp_match = icpMatchSpec post.text := rfl

/-- C9: `score_post` is a pure function of the post alone — the two context
arguments never influence the result, and (being a function) repeated
evaluation on the same post yields the identical breakdown. -/
theorem score_post_ignores_contexts (post : NormalizedPost)
    (ctx1 ctx2 ctx1' ctx2' : String) :
    score_post post ctx1 ctx2 = score_post post ctx1' ctx2' := rfl

/-- C5: for every configuration and all totals, `get_priority` is monotone
with respect to the ordering low < medium < high. -/
theorem get_priority_monotone (config : Config) (a b : ℤ) (hba : b ≤ a) :
    priorityRank (get_priority b config) ≤ priorityRank (get_priority a config) := by
  simp only [get_priority]
  split_ifs <;> first | decide | (exfalso; omega)

/-- Witness for C5 at concrete inputs. -/
theorem get_priority_monotone_witness :
    (0 : ℤ) ≤ 75 ∧
      priorityRank (get_priority 0 emptyConfig) ≤ priorityRank (get_priority 75 emptyConfig) :=
  ⟨by decide, get_priority_monotone emptyConfig 75 0 (by decide)⟩

/-- C4 counterexample: on the spec's worked example post the high-value terms
contribute 2 × 20 = 40 and the question signals 2 × 25 = 50, so the capped sum
is 90, not 100, and the total is 65, not 68 — refuting the claimed values. -/
theorem c4_example_claim_false :
    (score_post c4Post "" "").icp_match = 90
    ∧ ¬((score_post c4Post "" "").icp_match = 100
        ∧ (score_post c4Post "" "").total = 68) := by decide

/-- C4 amended: for the post with text "I'm looking for decentralized
storage, tired of big tech" and engagement_total = 12, `score_post` returns
icp_match = 90 (40 from high-value terms plus 50 from question signals, no
cap reached), topic_relevance = 30, conversation_stage = 85,
reach_potential = 40, timing = 80 and total = 65, which maps to priority
medium under the default thresholds 70/50. -/
theorem c4_example_amended :
    score_post c4Post "" "" =
      { total := 65, icp_match := 90, topic_relevance := 30,
        reach_potential := 40, timing := 80, conversation_stage := 85 }
    ∧ get_priority (score_post c4Post "" "").total emptyConfig = "medium" := by
  decide

/-! Section: Briefing file naming (`save_briefing`) -/

/-- The fields of the Python `datetime.now()` value consumed by the
`strftime` / `isoformat` calls of the briefing code. -/
structure PyDateTime where
  year : ℕ
  month : ℕ
  day : ℕ
  hour : ℕ
  minute : ℕ
  second : ℕ
deriving DecidableEq, Repr

/-- Zero-padded two-digit decimal rendering: strftime `%d` / `%H` / `%M`. -/
def pad2 (n : ℕ) : String := ⟨[Nat.digitChar (n / 10 % 10), Nat.digitChar (n % 10)]⟩

/-- Four-digit decimal rendering: strftime `%Y` (for four-digit years, the
only case in which CPython's platform `strftime` behaviour is uniform). -/
def pad4 (n : ℕ) : String :=
  ⟨[Nat.digitChar (n / 1000 % 10), Nat.digitChar (n / 100 % 10),
    Nat.digitChar (n / 10 % 10), Nat.digitChar (n % 10)]⟩

/-- strftime `%b`: abbreviated month name (C locale). -/
def monthAbbrev : ℕ → String
  | 1 => "Jan" | 2 => "Feb" | 3 => "Mar" | 4 => "Apr" | 5 => "May" | 6 => "Jun"
  | 7 => "Jul" | 8 => "Aug" | 9 => "Sep" | 10 => "Oct" | 11 => "Nov" | 12 => "Dec"
  | _ => ""

/-- Rendering `now.strftime("%Y-%b-%d")`, the date string of `generate_briefing` and
`save_briefing`. -/
def strftimeYbd (t : PyDateTime) : String :=
  pad4 t.year ++ "-" ++ monthAbbrev t.month ++ "-" ++ pad2 t.day

/-- Rendering `now.strftime("%H%M")`, the time suffix of `save_briefing`. -/
def strftimeHM (t : PyDateTime) : String := pad2 t.hour ++ pad2 t.minute

/-- Rendering `now.isoformat()` at second precision, as rendered into the briefing
frontmatter. -/
def isoformat (t : PyDateTime) : String :=
  pad4 t.year ++ "-" ++ pad2 t.month ++ "-" ++ pad2 t.day ++ "T"
    ++ pad2 t.hour ++ ":" ++ pad2 t.minute ++ ":" ++ pad2 t.second

/-- Source function `save_briefing` (`marketing_os.py` lines 712-727): the path, relative to
the project root, of the briefing file written by a run at time `now`.  The
actual file write is the I/O boundary and is not modelled. -/
def save_briefing_path (now : PyDateTime) : String :=
  let date_str := strftimeYbd now
  let time_str := strftimeHM now
  let filename := date_str ++ " - Daily Briefing (" ++ time_str ++ ").md"
  "Daily Review/" ++ filename

lemma digitChar_inj {a b : ℕ} (ha : a < 10) (hb : b < 10)
    (h : Nat.digitChar a = Nat.digitChar b) : a = b := by
  interval_cases a <;> interval_cases b <;> revert h <;> decide

lemma pad2_data_inj {a b : ℕ} (ha : a ≤ 99) (hb : b ≤ 99)
    (h : (pad2 a).data = (pad2 b).data) : a = b := by
  have hd := h
  simp only [pad2] at hd
  obtain ⟨h1, h2⟩ : Nat.digitChar (a / 10 % 10) = Nat.digitChar (b / 10 % 10)
      ∧ Nat.digitChar (a % 10) = Nat.digitChar (b % 10) := by simpa using hd
  have e1 := digitChar_inj (by omega) (by omega) h1
  have e2 := digitChar_inj (by omega) (by omega) h2
  omega

lemma pad4_data_inj {a b : ℕ} (ha : a ≤ 9999) (hb : b ≤ 9999)
    (h : (pad4 a).data = (pad4 b).data) : a = b := by
  have hd := h
  simp only [pad4] at hd
  obtain ⟨h1, h2, h3, h4⟩ : Nat.digitChar (a / 1000 % 10) = Nat.digitChar (b / 1000 % 10)
      ∧ Nat.digitChar (a / 100 % 10) = Nat.digitChar (b / 100 % 10)
      ∧ Nat.digitChar (a / 10 % 10) = Nat.digitChar (b / 10 % 10)
      ∧ Nat.digitChar (a % 10) = Nat.digitChar (b % 10) := by simpa using hd
  have e1 := digitChar_inj (by omega) (by omega) h1
  have e2 := digitChar_inj (by omega) (by omega) h2
  have e3 := digitChar_inj (by omega) (by omega) h3
  have e4 := digitChar_inj (by omega) (by omega) h4
  omega

lemma monthAbbrev_data_inj {a b : ℕ} (ha1 : 1 ≤ a) (ha2 : a ≤ 12) (hb1 : 1 ≤ b)
    (hb2 : b ≤ 12) (h : (monthAbbrev a).data = (monthAbbrev b).data) : a = b := by
  interval_cases a <;> interval_cases b <;> revert h <;> decide

lemma monthAbbrev_len {m : ℕ} (h1 : 1 ≤ m) (h2 : m ≤ 12) :
    (monthAbbrev m).data.length = 3 := by
  interval_cases m <;> rfl

/-- C7 counterexample: two distinct run times in the same calendar minute
(differing only in seconds) produce the same briefing file path, so a rerun
within one minute overwrites the earlier report. -/
theorem save_briefing_path_not_injective :
    (⟨2026, 10, 12, 14, 30, 15⟩ : PyDateTime) ≠ ⟨2026, 10, 12, 14, 30, 45⟩
    ∧ save_briefing_path ⟨2026, 10, 12, 14, 30, 15⟩
        = save_briefing_path ⟨2026, 10, 12, 14, 30, 45⟩ := by decide

/-- C7 amended: the briefing file path determines the run's year, month,
day, hour and minute (for valid calendar fields and four-digit years), so
two runs whose times differ at minute granularity get distinct files; only
runs within the same calendar minute share a path. -/
theorem save_briefing_path_minute_inj (t1 t2 : PyDateTime)
    (hy1 : t1.year ≤ 9999) (hy2 : t2.year ≤ 9999)
    (hm1 : 1 ≤ t1.month) (hm1' : t1.month ≤ 12)
    (hm2 : 1 ≤ t2.month) (hm2' : t2.month ≤ 12)
    (hd1 : t1.day ≤ 99) (hd2 : t2.day ≤ 99)
    (hh1 : t1.hour ≤ 99) (hh2 : t2.hour ≤ 99)
    (hmin1 : t1.minute ≤ 99) (hmin2 : t2.minute ≤ 99)
    (heq : save_briefing_path t1 = save_briefing_path t2) :
    t1.year = t2.year ∧ t1.month = t2.month ∧ t1.day = t2.day
      ∧ t1.hour = t2.hour ∧ t1.minute = t2.minute := by
  have hd := congrArg String.data heq
  simp only [save_briefing_path, strftimeYbd, strftimeHM, String.data_append,
    List.append_assoc] at hd
  have s1 := List.append_cancel_left hd
  obtain ⟨hyd, s2⟩ := List.append_inj s1 rfl
  have hyear := pad4_data_inj hy1 hy2 hyd
  have s3 := List.append_cancel_left s2
  obtain ⟨hmond, s4⟩ := List.append_inj s3
    (by rw [monthAbbrev_len hm1 hm1', monthAbbrev_len hm2 hm2'])
  have hmonth := monthAbbrev_data_inj hm1 hm1' hm2 hm2' hmond
  have s5 := List.append_cancel_left s4
  obtain ⟨hdayd, s6⟩ := List.append_inj s5 rfl
  have hday := pad2_data_inj hd1 hd2 hdayd
  have s7 := List.append_cancel_left s6
  obtain ⟨hhourd, s8⟩ := List.append_inj s7 rfl
  have hhour := pad2_data_inj hh1 hh2 hhourd
  obtain ⟨hmind, _⟩ := List.append_inj s8 rfl
  have hminute := pad2_data_inj hmin1 hmin2 hmind
  exact ⟨hyear, hmonth, hday, hhour, hminute⟩

/-- Witness for the amended C7 theorem at the two colliding concrete times. -/
theorem save_briefing_path_minute_inj_witness :
    save_briefing_path ⟨2026, 10, 12, 14, 30, 15⟩
        = save_briefing_path ⟨2026, 10, 12, 14, 30, 45⟩
    ∧ ((⟨2026, 10, 12, 14, 30, 15⟩ : PyDateTime).year
          = (⟨2026, 10, 12, 14, 30, 45⟩ : PyDateTime).year
        ∧ (⟨2026, 10, 12, 14, 30, 15⟩ : PyDateTime).month
          = (⟨2026, 10, 12, 14, 30, 45⟩ : PyDateTime).month
        ∧ (⟨2026, 10, 12, 14, 30, 15⟩ : PyDateTime).day
          = (⟨2026, 10, 12, 14, 30, 45⟩ : PyDateTime).day
        ∧ (⟨2026, 10, 12, 14, 30, 15⟩ : PyDateTime).hour
          = (⟨2026, 10, 12, 14, 30, 45⟩ : PyDateTime).hour
        ∧ (⟨2026, 10, 12, 14, 30, 15⟩ : PyDateTime).minute
          = (⟨2026, 10, 12, 14, 30, 45⟩ : PyDateTime).minute) :=
  ⟨by decide,
    save_briefing_path_minute_inj ⟨2026, 10, 12, 14, 30, 15⟩
      ⟨2026, 10, 12, 14, 30, 45⟩ (by decide) (by decide) (by decide) (by decide)
      (by decide) (by decide) (by decide) (by decide) (by decide) (by decide)
      (by decide) (by decide) (by decide)⟩

/-! Section: Bluesky fetcher -/

/-- The fields of a raw Bluesky post (either SDK shape: rich object or
generic mapping) that `extract_bluesky_post` reads; `none` models an absent
attribute/key (or a counter present as `None`, which the source collapses
to the same default via `or 0`). -/
structure RawBlueskyPost where
  uri : Option String
  handle : Option String
  text : Option String
  created_at : Option String
  likes : Option ℤ
  replies : Option ℤ
  reposts : Option ℤ
  display_name : Option String
deriving DecidableEq, Repr

/-- Source function `extract_bluesky_post` (`marketing_os.py` lines 333-378).  The
`matched_query` key is absent at this point (added later by the fetch
loop); it is therefore initialised to the empty string here. -/
def extract_bluesky_post (post : RawBlueskyPost) : NormalizedPost :=
  let handle := post.handle.getD ""
  let uri := post.uri.getD ""
  let text := post.text.getD ""
  let created_at := post.created_at.getD ""
  let likes := post.likes.getD 0
  let replies := post.replies.getD 0
  let reposts := post.reposts.getD 0
  let author_name := post.display_name.getD handle
  let post_id := if uri ≠ "" then (strSplit uri '/').getLastD "" else ""
  let web_url :=
    if handle ≠ "" ∧ post_id ≠ "" then
      "https://bsky.app/profile/" ++ handle ++ "/post/" ++ post_id
    else ""
  { platform := "bluesky"
    post_id := post_id
    url := web_url
    author_handle := handle
    author_name := if author_name = "" then handle else author_name
    text := text
    created_at := created_at
    likes := likes
    replies := replies
    reposts := reposts
    engagement_total := likes + replies + reposts
    matched_query := "" }

/-- The body of the inner `for post in posts` loop of `fetch_bluesky`:
extract, tag with the matching query, and append unless the `post_id` was
already seen. -/
def bluesky_step (query : String) (st : List String × List NormalizedPost)
    (post : RawBlueskyPost) : List String × List NormalizedPost :=
  let extracted := { extract_bluesky_post post with matched_query := query }
  if st.1.contains extracted.post_id then st
  else (extracted.post_id :: st.1, st.2 ++ [extracted])

/-- The query loop of `fetch_bluesky` (`marketing_os.py` lines 414-431),
threading the `seen_ids` set and the accumulated post list.  `search`
models `bluesky_search`, which already returns `[]` on a per-query error.
The `time.sleep` throttle has no effect on the result. -/
def fetch_bluesky_loop (search : String → List RawBlueskyPost) :
    List String → List String × List NormalizedPost → List NormalizedPost
  | [], st => st.2
  | query :: rest, st =>
    let posts := search query
    fetch_bluesky_loop search rest (posts.foldl (bluesky_step query) st)

/-- Source function `fetch_bluesky` (`marketing_os.py` lines 381-432).  The three
disabled/unavailable/unauthenticated early returns are collapsed into the
single `enabled` gate; an empty query list also short-circuits. -/
def fetch_bluesky (search : String → List RawBlueskyPost) (enabled : Bool)
    (queries : List String) : List NormalizedPost :=
  if ¬enabled then []
  else if queries.isEmpty then []
  else fetch_bluesky_loop search queries ([], [])

/-- The deduplication invariant for C10: at most one accumulated post has an
empty `post_id`, and if one does, the empty string is in `seen_ids`. -/
def emptyIdInv (st : List String × List NormalizedPost) : Prop :=
  st.2.countP (fun p => p.post_id == "") ≤ 1
  ∧ (st.2.countP (fun p => p.post_id == "") = 0 ∨ st.1.contains "" = true)

lemma bluesky_step_inv (query : String) (post : RawBlueskyPost)
    (st : List String × List NormalizedPost) (h : emptyIdInv st) :
    emptyIdInv (bluesky_step query st post) := by
  obtain ⟨h1, h2⟩ := h
  simp only [bluesky_step, emptyIdInv]
  split_ifs with hc
  · exact ⟨h1, h2⟩
  · by_cases hid : (extract_bluesky_post post).post_id = ""
    · rcases h2 with h2 | h2
      · refine ⟨?_, Or.inr ?_⟩
        · rw [List.countP_append, h2]
          simp [List.countP_cons, hid]
        · simp [hid, List.contains_cons]
      · exact absurd (hid ▸ h2) (by simpa using hc)
    · refine ⟨?_, ?_⟩
      · rw [List.countP_append]
        simpa [List.countP_cons, hid] using h1
      · rcases h2 with h2 | h2
        · exact Or.inl (by rw [List.countP_append]; simpa [List.countP_cons, hid] using h2)
        · have h2m : "" ∈ st.1 := by simpa using h2
          exact Or.inr (by simp [List.contains_cons, h2m])

lemma bluesky_fold_inv (query : String) (posts : List RawBlueskyPost)
    (st : List String × List NormalizedPost) (h : emptyIdInv st) :
    emptyIdInv (posts.foldl (bluesky_step query) st) := by
  induction posts generalizing st with
  | nil => exact h
  | cons p rest ih => exact ih _ (bluesky_step_inv query p st h)

lemma fetch_bluesky_loop_inv (search : String → List RawBlueskyPost)
    (queries : List String) (st : List String × List NormalizedPost)
    (h : emptyIdInv st) :
    (fetch_bluesky_loop search queries st).countP (fun p => p.post_id == "") ≤ 1 := by
  induction queries generalizing st with
  | nil => exact h.1
  | cons q rest ih =>
    exact ih _ (bluesky_fold_inv q (search q) st h)

/-- C10: a Bluesky post whose `uri` is missing or empty is normalised with
`post_id = ""` (and `url = ""`), and the run-level deduplication keys on
that empty string, so at most one post with an empty `post_id` survives in
the output of `fetch_bluesky` — even when the underlying posts differ. -/
theorem fetch_bluesky_empty_uri_dedup :
    (∀ raw : RawBlueskyPost, (raw.uri = none ∨ raw.uri = some "") →
      (extract_bluesky_post raw).post_id = "" ∧ (extract_bluesky_post raw).url = "")
    ∧ ∀ (search : String → List RawBlueskyPost) (enabled : Bool)
        (queries : List String),
        (fetch_bluesky search enabled queries).countP (fun p => p.post_id == "") ≤ 1 := by
  constructor
  · intro raw h
    rcases h with h | h <;> simp [extract_bluesky_post, h]
  · intro search enabled queries
    simp only [fetch_bluesky]
    split_ifs <;>
      first
        | simp
        | exact fetch_bluesky_loop_inv search queries ([], [])
            ⟨by simp, Or.inl (by simp)⟩

/-- A raw Bluesky post with no `uri` attribute, for the C10 witness. -/
def rawNoUri : RawBlueskyPost :=
  { uri := none, handle := some "alice.bsky.social", text := some "hello",
    created_at := none, likes := none, replies := none, reposts := none,
    display_name := none }

/-- A search stub returning two distinct uri-less posts for every query,
for the C10 witness. -/
def bskySearchStub : String → List RawBlueskyPost :=
  fun _ => [rawNoUri, { rawNoUri with text := some "other" }]

/-- Witness for C10 at concrete inputs: a uri-less raw post and a two-query
run whose every query returns two distinct uri-less posts. -/
theorem fetch_bluesky_empty_uri_dedup_witness :
    ((extract_bluesky_post rawNoUri).post_id = ""
      ∧ (extract_bluesky_post rawNoUri).url = "")
    ∧ (fetch_bluesky bskySearchStub true ["data privacy", "big tech"]).countP
        (fun p => p.post_id == "") ≤ 1 :=
  ⟨fetch_bluesky_empty_uri_dedup.1 rawNoUri (Or.inl rfl),
    fetch_bluesky_empty_uri_dedup.2 bskySearchStub true ["data privacy", "big tech"]⟩

/-! Section: YouTube fetcher -/

/-- A YouTube search result item joined with its statistics lookup entry:
the fields read by the fetch loop and `extract_youtube_video`.  The
statistics call is caught separately in the source and degrades to `{}`,
which is the all-`none` statistics here. -/
structure YouTubeItem where
  videoId : Option String
  title : Option String
  description : Option String
  channelTitle : Option String
  channelId : Option String
  publishedAt : Option String
  stat_views : Option ℤ
  stat_likes : Option ℤ
  stat_comments : Option ℤ
deriving DecidableEq, Repr

/-- Source function `extract_youtube_video` (`marketing_os.py` lines 565-601), restricted
to the `NormalizedPost` fields (the youtube-only output keys `title`,
`description`, `views`, `channel_url` are dropped as unused downstream). -/
def extract_youtube_video (item : YouTubeItem) (query : String) : NormalizedPost :=
  let video_id := item.videoId.getD ""
  let title := item.title.getD ""
  let description := item.description.getD ""
  let channel_name := item.channelTitle.getD ""
  let published_at := item.publishedAt.getD ""
  let url := "https://www.youtube.com/watch?v=" ++ video_id
  let likes := item.stat_likes.getD 0
  let comments := item.stat_comments.getD 0
  { platform := "youtube"
    post_id := video_id
    url := url
    author_handle := channel_name
    author_name := channel_name
    text := if description ≠ "" then "**" ++ title ++ "**\n\n" ++ description
            else "**" ++ title ++ "**"
    created_at := published_at
    likes := likes
    replies := comments
    reposts := 0
    engagement_total := likes + comments
    matched_query := query }

/-- The body of the `for item in items` loop of `fetch_youtube`: skip items
without a `videoId` or already seen, otherwise record the id and append the
extracted video. -/
def youtube_step (query : String) (st : List String × List NormalizedPost)
    (item : YouTubeItem) : List String × List NormalizedPost :=
  let video_id := item.videoId.getD ""
  if video_id = "" ∨ st.1.contains video_id then st
  else (video_id :: st.1, st.2 ++ [extract_youtube_video item query])

/-- The query loop of `fetch_youtube` (`marketing_os.py` lines 481-533).
`search` models the whole fallible per-query block (HTTP search, JSON
parse, statistics lookup) that the source wraps in `try/except`: an
`Except.error` is the caught exception, upon which the loop prints the
error and `continue`s with its state unchanged.  The `time.sleep`
throttle has no effect on the result. -/
def fetch_youtube_loop (search : String → Except String (List YouTubeItem)) :
    List String → List String × List NormalizedPost → List NormalizedPost
  | [], st => st.2
  | query :: rest, st =>
    match search query with
    | Except.error _ => fetch_youtube_loop search rest st
    | Except.ok items =>
        fetch_youtube_loop search rest (items.foldl (youtube_step query) st)

/-! Section: Twitter listener -/

/-- The fields of an Apify tweet object read by `run_listener` and
`tweet_to_markdown` (`twitter_listener.py`); `none` models an absent key. -/
structure Tweet where
  id : Option String
  author_userName : Option String
  author_name : Option String
  author_followers : Option ℤ
  author_description : Option String
  text : Option String
  url : Option String
  createdAt : Option String
  likeCount : Option ℤ
  retweetCount : Option ℤ
  replyCount : Option ℤ
  isReply : Option Bool
deriving DecidableEq, Repr

/-- Python `s.replace('"', '\\"')`: escape double quotes for YAML. -/
def escapeQuotes (s : String) : String :=
  ⟨s.data.flatMap (fun c => if c = '"' then ['\\', '"'] else [c])⟩

/-- Chunks of at most three characters taken from the head of a (reversed)
digit list: helper for Python's thousands grouping. -/
def chunks3 : List Char → List (List Char)
  | [] => []
  | [a] => [[a]]
  | [a, b] => [[a, b]]
  | a :: b :: c :: rest => [a, b, c] :: chunks3 rest

/-- Python's `f"{n:,}"`: decimal rendering with thousands separators. -/
def commaSep (n : ℤ) : String :=
  let ds := (toString n.natAbs).data.reverse
  let grouped := (((chunks3 ds).intersperse [',']).flatten).reverse
  if n < 0 then ⟨'-' :: grouped⟩ else ⟨grouped⟩

/-- Source function `tweet_to_markdown` (`twitter_listener.py` lines 45-118).  `sigId`
models `generate_signal_id` (a truncated md5 hex digest — an external
primitive passed in as a function) and `detected_at` models
`datetime.now(timezone.utc).isoformat()`. -/
def tweet_to_markdown (sigId : String → String) (detected_at : String)
    (tweet : Tweet) (matched_query : String) : String :=
  let tweet_id := tweet.id.getD ""
  let author_username := tweet.author_userName.getD "unknown"
  let author_name := tweet.author_name.getD author_username
  let author_followers := tweet.author_followers.getD 0
  let author_bio := tweet.author_description.getD ""
  let tweet_text := tweet.text.getD ""
  let tweet_url := tweet.url.getD
    ("https://twitter.com/" ++ author_username ++ "/status/" ++ tweet_id)
  let created_at := tweet.createdAt.getD ""
  let likes := tweet.likeCount.getD 0
  let retweets := tweet.retweetCount.getD 0
  let replies := tweet.replyCount.getD 0
  let is_reply := tweet.isReply.getD false
  let signal_id := sigId tweet_url
  let author_name_escaped := escapeQuotes author_name
  let author_bio_escaped :=
    escapeQuotes (if author_bio = "" then "No bio" else author_bio)
  let is_reply_str := if is_reply then "true" else "false"
  let followers_fmt := commaSep author_followers
  let bio_view := if author_bio = "" then "No bio" else author_bio
  let thread_line :=
    if is_reply then "This is a reply to another tweet."
    else "This is an original tweet (not a reply)."
  let frontmatter := "---\nid: " ++ signal_id ++ "\nsource: twitter\nurl: "
    ++ tweet_url ++ "\nauthor: \"@" ++ author_username ++ "\"\nauthor_name: \""
    ++ author_name_escaped ++ "\"\nauthor_followers: " ++ toString author_followers
    ++ "\ndetected_at: " ++ detected_at ++ "\ntweet_created_at: " ++ created_at
    ++ "\nkeywords_matched:\n  - \"" ++ matched_query
    ++ "\"\nengagement:\n  likes: " ++ toString likes ++ "\n  retweets: "
    ++ toString retweets ++ "\n  replies: " ++ toString replies
    ++ "\nis_reply: " ++ is_reply_str ++ "\nstatus: unscored\n---"
  let body := "\n## Original Tweet\n\n" ++ tweet_text
    ++ "\n\n## Author Context\n\n**@" ++ author_username ++ "** ("
    ++ author_name ++ ")\n- Followers: " ++ followers_fmt ++ "\n- Bio: "
    ++ bio_view ++ "\n\n## Engagement\n\n- Likes: " ++ toString likes
    ++ "\n- Retweets: " ++ toString retweets ++ "\n- Replies: "
    ++ toString replies ++ "\n\n## Matched Query\n\n`" ++ matched_query
    ++ "`\n\n## Thread Context\n\n" ++ thread_line ++ "\n"
  frontmatter ++ body

/-- Source function `save_signal` (`twitter_listener.py` lines 142-150): the inbox-relative
file name.  `timestamp` models `datetime.now().strftime("%Y-%m-%d-%H%M")`;
the write itself is the I/O boundary. -/
def save_signal_name (sigId : String → String) (timestamp : String)
    (tweet_url : String) : String :=
  timestamp ++ "-twitter-" ++ sigId tweet_url ++ ".md"

/-- The mutable state threaded through `run_listener`'s query loop:
the duplicate-URL set, the signals written to the inbox as
(file name, content) pairs, and the three counters. -/
structure TwitterState where
  existing_urls : List String
  saved : List (String × String)
  total_found : ℤ
  total_new : ℤ
  total_saved : ℤ
deriving DecidableEq, Repr

/-- The body of the `for tweet in tweets` loop of `run_listener`: skip
duplicates and under-threshold tweets, otherwise convert to markdown and
record the saved signal. -/
def twitter_step (sigId : String → String) (timestamp detected_at : String)
    (min_likes min_replies : ℤ) (query : String) (st : TwitterState)
    (tweet : Tweet) : TwitterState :=
  let tweet_url := tweet.url.getD ""
  if st.existing_urls.contains tweet_url then st
  else if tweet.likeCount.getD 0 < min_likes ∨ tweet.replyCount.getD 0 < min_replies then st
  else
    { st with
      total_new := st.total_new + 1
      saved := st.saved ++ [(save_signal_name sigId timestamp tweet_url,
        tweet_to_markdown sigId detected_at tweet query)]
      total_saved := st.total_saved + 1
      existing_urls := st.existing_urls ++ [tweet_url] }

/-- The query loop of `run_listener` (`twitter_listener.py` lines 193-240).
`apify` models the fallible per-query block (actor call plus dataset
iteration) wrapped in `try/except`: on `Except.error` the loop prints the
error and `continue`s with its state unchanged. -/
def run_listener_loop (apify : String → Except String (List Tweet))
    (sigId : String → String) (timestamp detected_at : String)
    (min_likes min_replies : ℤ) :
    List String → TwitterState → TwitterState
  | [], st => st
  | query :: rest, st =>
    match apify query with
    | Except.error _ =>
        run_listener_loop apify sigId timestamp detected_at min_likes min_replies rest st
    | Except.ok tweets =>
        run_listener_loop apify sigId timestamp detected_at min_likes min_replies rest
          ((tweets.foldl
            (twitter_step sigId timestamp detected_at min_likes min_replies query)
            { st with total_found := st.total_found + (tweets.length : ℤ) }))

lemma fetch_youtube_loop_skip (search : String → Except String (List YouTubeItem))
    (q e : String) (h : search q = Except.error e) (qs1 qs2 : List String)
    (st : List String × List NormalizedPost) :
    fetch_youtube_loop search (qs1 ++ q :: qs2) st
      = fetch_youtube_loop search (qs1 ++ qs2) st := by
  induction qs1 generalizing st with
  | nil => simp only [List.nil_append, fetch_youtube_loop, h]
  | cons a as ih =>
    simp only [List.cons_append, fetch_youtube_loop]
    cases search a <;> exact ih _

lemma run_listener_loop_skip (apify : String → Except String (List Tweet))
    (sigId : String → String) (timestamp detected_at : String)
    (min_likes min_replies : ℤ) (q e : String)
    (h : apify q = Except.error e) (qs1 qs2 : List String) (st : TwitterState) :
    run_listener_loop apify sigId timestamp detected_at min_likes min_replies
        (qs1 ++ q :: qs2) st
      = run_listener_loop apify sigId timestamp detected_at min_likes min_replies
        (qs1 ++ qs2) st := by
  induction qs1 generalizing st with
  | nil => simp only [List.nil_append, run_listener_loop, h]
  | cons a as ih =>
    simp only [List.cons_append, run_listener_loop]
    cases apify a <;> exact ih _

/-- C8: in both platform fetch loops, a per-query fetch failure leaves the
loop state untouched and the loop proceeds with the remaining queries: the
run's result is exactly as if the failing query were absent, so posts
collected from the other queries are still returned. -/
theorem fetch_loops_tolerate_query_failure
    (ysearch : String → Except String (List YouTubeItem)) (yq ye : String)
    (yqs1 yqs2 : List String) (yst : List String × List NormalizedPost)
    (apify : String → Except String (List Tweet)) (sigId : String → String)
    (timestamp detected_at : String) (min_likes min_replies : ℤ)
    (tq te : String) (tqs1 tqs2 : List String) (tst : TwitterState)
    (hy : ysearch yq = Except.error ye) (ht : apify tq = Except.error te) :
    fetch_youtube_loop ysearch (yqs1 ++ yq :: yqs2) yst
        = fetch_youtube_loop ysearch (yqs1 ++ yqs2) yst
    ∧ run_listener_loop apify sigId timestamp detected_at min_likes min_replies
          (tqs1 ++ tq :: tqs2) tst
        = run_listener_loop apify sigId timestamp detected_at min_likes min_replies
          (tqs1 ++ tqs2) tst :=
  ⟨fetch_youtube_loop_skip ysearch yq ye hy yqs1 yqs2 yst,
    run_listener_loop_skip apify sigId timestamp detected_at min_likes
      min_replies tq te ht tqs1 tqs2 tst⟩

/-- A YouTube search stub failing on one query, for the C8 witness. -/
def ysearchStub : String → Except String (List YouTubeItem) :=
  fun q => if q = "qbad" then Except.error "quota exceeded" else Except.ok []

/-- An Apify stub failing on one query, for the C8 witness. -/
def apifyStub : String → Except String (List Tweet) :=
  fun q => if q = "qbad" then Except.error "rate limited" else Except.ok []

/-- Witness for C8: concrete three-query runs whose middle query fails. -/
theorem fetch_loops_tolerate_query_failure_witness :
    ysearchStub "qbad" = Except.error "quota exceeded"
    ∧ apifyStub "qbad" = Except.error "rate limited"
    ∧ fetch_youtube_loop ysearchStub (["q1"] ++ "qbad" :: ["q2"]) ([], [])
        = fetch_youtube_loop ysearchStub (["q1"] ++ ["q2"]) ([], [])
    ∧ run_listener_loop apifyStub (fun s => s) "2026-02-03-1200" "iso" 0 0
          (["q1"] ++ "qbad" :: ["q2"]) ⟨[], [], 0, 0, 0⟩
        = run_listener_loop apifyStub (fun s => s) "2026-02-03-1200" "iso" 0 0
          (["q1"] ++ ["q2"]) ⟨[], [], 0, 0, 0⟩ :=
  ⟨rfl, rfl,
    (fetch_loops_tolerate_query_failure ysearchStub "qbad" "quota exceeded"
      ["q1"] ["q2"] ([], []) apifyStub (fun s => s) "2026-02-03-1200" "iso" 0 0
      "qbad" "rate limited" ["q1"] ["q2"] ⟨[], [], 0, 0, 0⟩ rfl rfl).1,
    (fetch_loops_tolerate_query_failure ysearchStub "qbad" "quota exceeded"
      ["q1"] ["q2"] ([], []) apifyStub (fun s => s) "2026-02-03-1200" "iso" 0 0
      "qbad" "rate limited" ["q1"] ["q2"] ⟨[], [], 0, 0, 0⟩ rfl rfl).2⟩

/-! Section: Daily briefing generation -/

/-- The `stats` dictionary assembled in `main` and consumed by
`generate_briefing`. -/
structure RunStats where
  platforms : String
  queries_run : ℤ
  total_fetched : ℤ
deriving DecidableEq, Repr

/-- A scored post as assembled in `main`: the normalised post together with
its score breakdown and derived priority tier. -/
structure ScoredPost where
  post : NormalizedPost
  score : ScoreBreakdown
  priority : String
deriving DecidableEq, Repr

/-- The lines appended for one rendered post with its 1-based rank `i`
(the loop body of `generate_briefing`, `marketing_os.py` lines 657-694). -/
def briefingEntry (i : ℕ) (p : ScoredPost) : List String :=
  let badge := if p.priority = "high" then "HIGH SIGNAL"
    else if p.priority = "medium" then "Medium" else "Low"
  [ "### " ++ toString i ++ ". @" ++ p.post.author_handle ++ " — Score: "
      ++ toString p.score.total ++ " (" ++ badge ++ ")",
    "",
    "**" ++ p.post.author_name ++ "** · " ++ toString p.post.likes
      ++ " likes · " ++ toString p.post.replies ++ " replies · "
      ++ toString p.post.reposts ++ " reposts",
    "",
    "> " ++ p.post.text,
    "",
    "**Matched query:** `" ++ p.post.matched_query ++ "`",
    "**Link:** " ++ p.post.url,
    "",
    "<details><summary>Score breakdown</summary>",
    "",
    "| Dimension | Score |",
    "|-----------|-------|",
    "| ICP Match | " ++ toString p.score.icp_match ++ " |",
    "| Topic Relevance | " ++ toString p.score.topic_relevance ++ " |",
    "| Reach Potential | " ++ toString p.score.reach_potential ++ " |",
    "| Timing | " ++ toString p.score.timing ++ " |",
    "| Conversation Stage | " ++ toString p.score.conversation_stage ++ " |",
    "",
    "</details>",
    "",
    "---",
    "" ]

/-- The `lines` list built by `generate_briefing` (`marketing_os.py`
lines 609-709); the returned report is these lines joined by newlines.
`now` models the `datetime.now()` read at the top of the function; the
`config` parameter is accepted and unused, as in the source. -/
def generate_briefing_lines (scored_posts : List ScoredPost) ( config : Config)
    (stats : RunStats) (now : PyDateTime) (max_results : ℕ) : List String :=
  let date_str := strftimeYbd now
  let generated := isoformat now
  let sorted_posts := scored_posts.mergeSort (fun a b => b.score.total ≤ a.score.total)
  let top_posts := sorted_posts.take max_results
  let high_count := scored_posts.countP (fun p => p.priority == "high")
  let medium_count := scored_posts.countP (fun p => p.priority == "medium")
  let low_count := scored_posts.countP (fun p => p.priority == "low")
  [ "---",
    "date: " ++ date_str,
    "generated: " ++ generated,
    "posts_scanned: " ++ toString stats.total_fetched,
    "showing: " ++ toString top_posts.length,
    "high_priority_total: " ++ toString high_count,
    "medium_priority_total: " ++ toString medium_count,
    "status: unreviewed",
    "---",
    "",
    "## Summary",
    "",
    "Scanned **" ++ toString stats.total_fetched ++ "** posts across "
      ++ stats.platforms ++ ".",
    "Showing top **" ++ toString top_posts.length ++ "** ranked by score.",
    "" ]
  ++ (if 0 < high_count then
        ["**" ++ toString high_count ++ "** high-signal posts found in this batch."]
      else [])
  ++ [ "",
       "## Top Opportunities",
       "" ]
  ++ (List.enumFrom 1 top_posts).flatMap (fun ip => briefingEntry ip.1 ip.2)
  ++ [ "## Run Statistics",
       "",
       "| Metric | Value |",
       "|--------|-------|",
       "| Platforms | " ++ stats.platforms ++ " |",
       "| Queries run | " ++ toString stats.queries_run ++ " |",
       "| Posts scanned | " ++ toString stats.total_fetched ++ " |",
       "| High signal (70+) | " ++ toString high_count ++ " |",
       "| Medium signal (50-69) | " ++ toString medium_count ++ " |",
       "| Low signal (<50) | " ++ toString low_count ++ " |",
       "" ]

/-- Source function `generate_briefing`'s return value: the lines joined with newlines. -/
def generate_briefing (scored_posts : List ScoredPost) (config : Config)
    (stats : RunStats) (now : PyDateTime) (max_results : ℕ) : String :=
  String.intercalate "\n" (generate_briefing_lines scored_posts config stats now max_results)

/-- Does a briefing line open a rendered post entry?  Entry header lines —
and only they — start with the four characters of `"### "`. -/
def isEntryLine (l : String) : Bool := ['#', '#', '#', ' '].isPrefixOf l.data

lemma briefingEntry_countP (i : ℕ) (p : ScoredPost) :
    (briefingEntry i p).countP isEntryLine = 1 := by
  simp +decide [briefingEntry, List.countP_cons, isEntryLine,
    String.data_append, List.isPrefixOf_cons₂]

lemma countP_flatMap_entries (l : List (ℕ × ScoredPost)) :
    (l.flatMap (fun ip => briefingEntry ip.1 ip.2)).countP isEntryLine = l.length := by
  induction l with
  | nil => rfl
  | cons h t ih =>
    simp [List.countP_append, ih, briefingEntry_countP]
    omega

/-- C6: the briefing renders at most `max_results` detailed entries even
when more scored posts exist, while the high/medium/low aggregate counts it
displays (frontmatter and statistics table) are computed over the entire
scored list, not just the rendered subset. -/
theorem generate_briefing_topn_and_full_counts (scored_posts : List ScoredPost)
    (config : Config) (stats : RunStats) (now : PyDateTime) (max_results : ℕ) :
    (generate_briefing_lines scored_posts config stats now max_results).countP isEntryLine
        ≤ max_results
    ∧ ("high_priority_total: "
        ++ toString (scored_posts.countP (fun p => p.priority == "high")))
        ∈ generate_briefing_lines scored_posts config stats now max_results
    ∧ ("medium_priority_total: "
        ++ toString (scored_posts.countP (fun p => p.priority == "medium")))
        ∈ generate_briefing_lines scored_posts config stats now max_results
    ∧ ("| High signal (70+) | "
        ++ toString (scored_posts.countP (fun p => p.priority == "high")) ++ " |")
        ∈ generate_briefing_lines scored_posts config stats now max_results
    ∧ ("| Medium signal (50-69) | "
        ++ toString (scored_posts.countP (fun p => p.priority == "medium")) ++ " |")
        ∈ generate_briefing_lines scored_posts config stats now max_results
    ∧ ("| Low signal (<50) | "
        ++ toString (scored_posts.countP (fun p => p.priority == "low")) ++ " |")
        ∈ generate_briefing_lines scored_posts config stats now max_results := by
  refine ⟨?_, ?_, ?_, ?_, ?_, ?_⟩
  · simp only [generate_briefing_lines]
    by_cases hc : 0 < scored_posts.countP (fun p => p.priority == "high") <;>
      · simp +decide [hc, List.countP_append, List.countP_cons, isEntryLine,
          String.data_append, List.isPrefixOf_cons₂, countP_flatMap_entries,
          List.enumFrom_length, List.length_take]
  · simp [generate_briefing_lines]
  · simp [generate_briefing_lines]
  · simp [generate_briefing_lines]
  · simp [generate_briefing_lines]
  · simp [generate_briefing_lines]
